import Mathlib

/-!
# The `start` command of the machine-config daemon

A shallow embedding of `cmd/machine-config-daemon/start.go`.

The command is a straight-line sequence of calls into collaborators (the
operating system, client-go, the `daemon` package, `glog`).  The collaborators
are taken as a record of result functions (`World`); the command itself is
translated statement by statement into a function that threads the package
variable `startOpts` and the list of effects performed so far, and that ends in
one of three ways: it returns, the process exits (`glog.Fatalf`), or a
collaborator panics (`...OrDie`).

Go semantics used:
* `glog.Fatalf` logs and calls `os.Exit(255)`; `os.Exit` terminates the program
  immediately and deferred functions are not run;
* a deferred call runs when the surrounding function returns;
* logging calls that cannot terminate the process (`glog.Infof`,
  `glog.V(4).Infof`) and `flag.Set` / `flag.Parse` leave no event.
-/

namespace MachineConfigDaemon

/-- A non-nil Go `error` value, represented by its message. -/
abbrev GoError := String

/-- The fields of `rest.Config` that matter here. -/
structure RestConfig where
  host : String
  userAgent : String
  deriving DecidableEq, Repr

/-- Handle of a `mcfgclientset.Interface`. -/
structure McfgClient where
  id : Nat
  deriving DecidableEq, Repr

/-- Handle of a `kubernetes.Interface`. -/
structure KubeClient where
  id : Nat
  deriving DecidableEq, Repr

/-- Handle of a `*daemon.Daemon`. -/
structure Daemon where
  id : Nat
  deriving DecidableEq, Repr

/-- The package variable `startOpts` (lines 26-30). -/
structure StartOpts where
  kubeconfig : String
  nodeName : String
  rootPrefix : String
  deriving DecidableEq, Repr

/-- The struct `clientBuilder` (lines 101-103); `config` is a pointer. -/
structure clientBuilder where
  config : Option RestConfig
  deriving DecidableEq, Repr

/-- Effects of the command, each with the arguments it was called with and,
for a call that reports one, the result it gave (`none` is the nil error). -/
inductive Event where
  | lookupEnv (key : String) (value : String) (ok : Bool)
  | buildConfigFromFlags (masterUrl : String) (kubeconfigPath : String) (err : Option GoError)
  | inClusterConfig (err : Option GoError)
  | stat (name : String) (err : Option GoError)
  | chroot (path : String) (err : Option GoError)
  | chdir (dir : String) (err : Option GoError)
  | assignRootPrefix (value : String)
  | clientOrDie (name : String) (died : Bool)
  | kubeClientOrDie (name : String) (died : Bool)
  | daemonNew (rootPrefix : String) (nodeName : String) (err : Option GoError)
  | makeStopCh
  | daemonRun (err : Option GoError)
  | closeStopCh
  | fatalf (format : String) (args : List String)
  deriving DecidableEq, Repr

/-- The collaborators of the command.  A Go pair `(value, error)` is a pair whose
second component is `none` for the nil error; a pointer is an `Option`; an
`...OrDie` constructor gives `none` when it panics. -/
structure World where
  /-- The constant `componentName`, declared elsewhere in package `main`. -/
  componentName : String
  /-- Go `os.LookupEnv`. -/
  lookupEnv : String → String × Bool
  /-- Go `clientcmd.BuildConfigFromFlags`. -/
  buildConfigFromFlags : String → String → Option RestConfig × Option GoError
  /-- Go `rest.InClusterConfig`. -/
  inClusterConfig : Option RestConfig × Option GoError
  /-- Go `os.Stat`, its error result. -/
  stat : String → Option GoError
  /-- Go `os.IsNotExist`. -/
  isNotExist : GoError → Bool
  /-- Go `syscall.Chroot`. -/
  chroot : String → Option GoError
  /-- Go `os.Chdir`. -/
  chdir : String → Option GoError
  /-- Go `rest.AddUserAgent`. -/
  addUserAgent : Option RestConfig → String → Option RestConfig
  /-- Go `mcfgclientset.NewForConfigOrDie`. -/
  mcfgNewForConfigOrDie : Option RestConfig → Option McfgClient
  /-- Go `kubernetes.NewForConfigOrDie`. -/
  kubeNewForConfigOrDie : Option RestConfig → Option KubeClient
  /-- Go `daemon.New`. -/
  daemonNew : String → String → McfgClient → KubeClient → Option Daemon × Option GoError
  /-- Go `(*Daemon).Run`, called with the stop channel. -/
  daemonRun : Option Daemon → Option GoError

/-- How an invocation of the command ends. -/
inductive Outcome where
  | returned
  | exited (status : Nat)
  | panicked
  deriving DecidableEq, Repr

/-- The end of an invocation: how it ended, the value of `startOpts` at that
point, and the effects performed, in order. -/
structure Result where
  outcome : Outcome
  startOpts : StartOpts
  trace : List Event
  deriving DecidableEq, Repr

/-- Go `glog.Fatalf`: the message is logged and the process exits with status
255.  Nothing runs afterwards, deferred calls included. -/
def glogFatalf (startOpts : StartOpts) (trace : List Event) (format : String)
    (args : List String) : Result :=
  { outcome := Outcome.exited 255, startOpts := startOpts,
    trace := trace ++ [Event.fatalf format args] }

/-- A panic raised in a collaborator before any `defer` was registered. -/
def goPanic (startOpts : StartOpts) (trace : List Event) : Result :=
  { outcome := Outcome.panicked, startOpts := startOpts, trace := trace }

/-- The function returns: the deferred calls run (last registered first). -/
def goReturn (startOpts : StartOpts) (trace : List Event) (deferred : List Event) : Result :=
  { outcome := Outcome.returned, startOpts := startOpts, trace := trace ++ deferred }

/-- The Go result pair `(*clientBuilder, error)` of `newClientBuilder`, with the
calls it made. -/
structure BuilderResult where
  cb : Option clientBuilder
  err : Option GoError
  trace : List Event
  deriving DecidableEq, Repr

/-- The function `newClientBuilder` (lines 113-131). -/
def newClientBuilder (w : World) (kubeconfig : String) : BuilderResult :=
  let loaded : (Option RestConfig × Option GoError) × List Event :=
    if kubeconfig ≠ "" then
      (w.buildConfigFromFlags "" kubeconfig,
        [Event.buildConfigFromFlags "" kubeconfig (w.buildConfigFromFlags "" kubeconfig).2])
    else
      (w.inClusterConfig, [Event.inClusterConfig w.inClusterConfig.2])
  match loaded.1.2 with
  | some err => { cb := none, err := some err, trace := loaded.2 }
  | none => { cb := some { config := loaded.1.1 }, err := none, trace := loaded.2 }

/-- The method `(*clientBuilder).ClientOrDie` (lines 105-107); `none` when the
receiver is nil or the constructor dies. -/
def clientBuilder.ClientOrDie (w : World) (cb : Option clientBuilder) (name : String) :
    Option McfgClient :=
  match cb with
  | none => none
  | some b => w.mcfgNewForConfigOrDie (w.addUserAgent b.config name)

/-- The method `(*clientBuilder).KubeClientOrDie` (lines 109-111). -/
def clientBuilder.KubeClientOrDie (w : World) (cb : Option clientBuilder) (name : String) :
    Option KubeClient :=
  match cb with
  | none => none
  | some b => w.kubeNewForConfigOrDie (w.addUserAgent b.config name)

/-- Lines 83-99 of `runStartCmd`: the daemon is built and run. -/
def runStartCmd.handoff (w : World) (cb : Option clientBuilder) (startOpts : StartOpts)
    (trace : List Event) : Result :=
  match clientBuilder.ClientOrDie w cb w.componentName with
  | none => goPanic startOpts (trace ++ [Event.clientOrDie w.componentName true])
  | some client =>
    let trace := trace ++ [Event.clientOrDie w.componentName false]
    match clientBuilder.KubeClientOrDie w cb w.componentName with
    | none => goPanic startOpts (trace ++ [Event.kubeClientOrDie w.componentName true])
    | some kubeClient =>
      let trace := trace ++ [Event.kubeClientOrDie w.componentName false]
      let made := w.daemonNew startOpts.rootPrefix startOpts.nodeName client kubeClient
      let trace := trace ++ [Event.daemonNew startOpts.rootPrefix startOpts.nodeName made.2]
      match made.2 with
      | some err => glogFatalf startOpts trace "failed to initialize daemon: %v" [err]
      | none =>
        -- stopCh := make(chan struct{})
        let trace := trace ++ [Event.makeStopCh]
        -- defer close(stopCh)
        let deferred := [Event.closeStopCh]
        -- err = daemon.Run(stopCh)
        let err := w.daemonRun made.1
        let trace := trace ++ [Event.daemonRun err]
        match err with
        | some e => glogFatalf startOpts trace "failed to run: %v" [e]
        | none => goReturn startOpts trace deferred

/-- Lines 55-99 of `runStartCmd`: everything after the node name block.
`rootMount` is the value of the selector `startOpts.rootMount` of line 61, a
field that the declaration of `startOpts` (lines 26-30) does not have. -/
def runStartCmd.afterNodeName (w : World) (rootMount : String) (startOpts : StartOpts)
    (trace : List Event) : Result :=
  let built := newClientBuilder w startOpts.kubeconfig
  let trace := trace ++ built.trace
  match built.err with
  | some err => glogFatalf startOpts trace "error creating clients: %v" [err]
  | none =>
    -- Ensure that the rootMount exists
    let trace := trace ++ [Event.stat rootMount (w.stat rootMount)]
    match w.stat rootMount with
    | some err =>
      if w.isNotExist err then
        glogFatalf startOpts trace "rootPrefix %s does not exist" [startOpts.rootPrefix]
      else
        glogFatalf startOpts trace "unable to verify rootPrefix %s exists: %s"
          [startOpts.rootPrefix, err]
    | none =>
      -- Chroot into the root file system
      let trace := trace ++ [Event.chroot startOpts.rootPrefix (w.chroot startOpts.rootPrefix)]
      match w.chroot startOpts.rootPrefix with
      | some err =>
        glogFatalf startOpts trace "unable to chroot to %s: %s" [startOpts.rootPrefix, err]
      | none =>
        -- move into / inside the chroot
        let trace := trace ++ [Event.chdir "/" (w.chdir "/")]
        match w.chdir "/" with
        | some err => glogFatalf startOpts trace "unable to change directory to /: %s" [err]
        | none =>
          -- Set the root prefix to "" since we are inside the rootfs chroot
          let startOpts := { startOpts with rootPrefix := "" }
          let trace := trace ++ [Event.assignRootPrefix ""]
          runStartCmd.handoff w built.cb startOpts trace

/-- The function `runStartCmd` (lines 40-99). -/
def runStartCmd (w : World) (rootMount : String) (startOpts : StartOpts) : Result :=
  if startOpts.nodeName = "" then
    let looked := w.lookupEnv "NODE_NAME"
    let trace := [Event.lookupEnv "NODE_NAME" looked.1 looked.2]
    if looked.2 = false ∨ looked.1 = "" then
      glogFatalf startOpts trace "node-name is required" []
    else
      runStartCmd.afterNodeName w rootMount { startOpts with nodeName := looked.1 } trace
  else
    runStartCmd.afterNodeName w rootMount startOpts []

/-- Events that load a client configuration (a credential source). -/
def Event.isConfigLoad : Event → Bool
  | Event.buildConfigFromFlags _ _ _ => true
  | Event.inClusterConfig _ => true
  | _ => false

/-- Events that construct a client from the builder. -/
def Event.isClientConstruction : Event → Bool
  | Event.clientOrDie _ _ => true
  | Event.kubeClientOrDie _ _ => true
  | _ => false

/-- The steps of the root transition (`os.Stat`, `syscall.Chroot`, `os.Chdir`,
the assignment to `startOpts.rootPrefix`) and the call of `daemon.New`. -/
def Event.isRootStepOrNew : Event → Bool
  | Event.stat _ _ => true
  | Event.chroot _ _ => true
  | Event.chdir _ _ => true
  | Event.assignRootPrefix _ => true
  | Event.daemonNew _ _ _ => true
  | _ => false

/-- Calls of `daemon.Run`. -/
def Event.isDaemonRun : Event → Bool
  | Event.daemonRun _ => true
  | _ => false

/-- A node on which every step of the command can succeed: `NODE_NAME` is
`worker-0`, a kubeconfig lies at `/etc/kubeconfig`, the host root is mounted at
`/rootfs`, and the daemon runs until it is stopped without an error. -/
def exampleWorld : World :=
  { componentName := "machine-config-daemon"
    lookupEnv := fun key => if key = "NODE_NAME" then ("worker-0", true) else ("", false)
    buildConfigFromFlags := fun _ path =>
      if path = "/etc/kubeconfig" then (some ⟨"https://api.example:6443", ""⟩, none)
      else (none, some "no such file or directory")
    inClusterConfig := (some ⟨"https://kubernetes.default.svc", ""⟩, none)
    stat := fun name =>
      if name = "/" ∨ name = "/rootfs" then none else some "no such file or directory"
    isNotExist := fun err => decide (err = "no such file or directory")
    chroot := fun path => if path = "/rootfs" then none else some "no such file or directory"
    chdir := fun _ => none
    addUserAgent := fun config name => config.map fun c => { c with userAgent := name }
    mcfgNewForConfigOrDie := fun config => config.map fun _ => ⟨1⟩
    kubeNewForConfigOrDie := fun config => config.map fun _ => ⟨2⟩
    daemonNew := fun _ _ _ _ => (some ⟨0⟩, none)
    daemonRun := fun _ => none }

/-- The node of `exampleWorld`, with a daemon whose `Run` returns an error. -/
def runFailsWorld : World :=
  { exampleWorld with daemonRun := fun _ => some "lost connection" }

/-- The node of `exampleWorld`, with `NODE_NAME` unset. -/
def noEnvWorld : World :=
  { exampleWorld with lookupEnv := fun _ => ("", false) }

/-- The node of `exampleWorld`, outside a cluster: no ambient credentials. -/
def noClusterWorld : World :=
  { exampleWorld with inClusterConfig := (none, some "not running in a cluster") }

/-- The default flags, with an explicit node name. -/
def exampleOpts : StartOpts :=
  { kubeconfig := "", nodeName := "worker-1", rootPrefix := "/rootfs" }

/-- The default flags: the node name is left to `NODE_NAME`. -/
def defaultOpts : StartOpts :=
  { kubeconfig := "", nodeName := "", rootPrefix := "/rootfs" }

/-! ## Auxiliary facts -/

theorem newClientBuilder_trace (w : World) (k : String) :
    (newClientBuilder w k).trace =
      if k = "" then [Event.inClusterConfig w.inClusterConfig.2]
      else [Event.buildConfigFromFlags "" k (w.buildConfigFromFlags "" k).2] := by
  unfold newClientBuilder
  by_cases hk : k = "" <;> simp [hk] <;> split <;> rfl

theorem mem_newClientBuilder_trace (w : World) (k : String) (ev : Event) :
    ev ∈ (newClientBuilder w k).trace ↔
      (k = "" ∧ ev = Event.inClusterConfig w.inClusterConfig.2) ∨
      (k ≠ "" ∧ ev = Event.buildConfigFromFlags "" k (w.buildConfigFromFlags "" k).2) := by
  rw [newClientBuilder_trace]
  by_cases hk : k = "" <;> simp [hk]

theorem newClientBuilder_err (w : World) (k : String) :
    (newClientBuilder w k).err =
      if k = "" then w.inClusterConfig.2 else (w.buildConfigFromFlags "" k).2 := by
  unfold newClientBuilder
  by_cases hk : k = "" <;> simp [hk] <;> split <;> simp_all

theorem newClientBuilder_cb (w : World) (k : String) :
    (newClientBuilder w k).cb =
      if (newClientBuilder w k).err = none then
        some { config := if k = "" then w.inClusterConfig.1 else (w.buildConfigFromFlags "" k).1 }
      else none := by
  unfold newClientBuilder
  by_cases hk : k = "" <;> simp [hk] <;> split <;> simp_all

theorem filter_newClientBuilder_trace (w : World) (k : String) (f : Event → Bool)
    (hf : ∀ ev, ev.isConfigLoad = true → f ev = false) :
    (newClientBuilder w k).trace.filter f = [] := by
  rw [List.filter_eq_nil_iff]
  intro ev hev
  rw [mem_newClientBuilder_trace] at hev
  have hc : ev.isConfigLoad = true := by
    rcases hev with ⟨_, rfl⟩ | ⟨_, rfl⟩ <;> rfl
  simp [hf ev hc]

theorem afterNodeName_lookupEnv (w : World) (env : String → String × Bool) (rootMount : String)
    (o : StartOpts) (t : List Event) :
    runStartCmd.afterNodeName { w with lookupEnv := env } rootMount o t =
      runStartCmd.afterNodeName w rootMount o t := by
  rfl

theorem afterNodeName_nodeName (w : World) (rootMount : String) (o : StartOpts)
    (t : List Event) :
    (runStartCmd.afterNodeName w rootMount o t).startOpts.nodeName = o.nodeName := by
  unfold runStartCmd.afterNodeName runStartCmd.handoff
  dsimp only
  repeat' split
  all_goals simp_all [glogFatalf, goPanic, goReturn]

/-! ## Identity resolution -/

/-- C4: a non-empty `--node-name` is kept as it is, `NODE_NAME` is not looked
up, and the invocation is the same whatever the environment holds. -/
theorem nonempty_node_name_is_kept (w : World) (rootMount : String) (o : StartOpts)
    (h : o.nodeName ≠ "") :
    (runStartCmd w rootMount o).startOpts.nodeName = o.nodeName ∧
    (∀ key value ok, Event.lookupEnv key value ok ∉ (runStartCmd w rootMount o).trace) ∧
    (∀ nn rp e, Event.daemonNew rp nn e ∈ (runStartCmd w rootMount o).trace → nn = o.nodeName) ∧
    (∀ env : String → String × Bool,
      runStartCmd { w with lookupEnv := env } rootMount o = runStartCmd w rootMount o) := by
  refine ⟨?_, ?_, ?_, ?_⟩
  · unfold runStartCmd
    simp [h, afterNodeName_nodeName]
  · unfold runStartCmd runStartCmd.afterNodeName runStartCmd.handoff
    dsimp only
    repeat' split
    all_goals simp_all [glogFatalf, goPanic, goReturn, mem_newClientBuilder_trace]
  · unfold runStartCmd runStartCmd.afterNodeName runStartCmd.handoff
    dsimp only
    repeat' split
    all_goals simp_all [glogFatalf, goPanic, goReturn, mem_newClientBuilder_trace]
  · intro env
    unfold runStartCmd
    simp [h, afterNodeName_lookupEnv]

theorem nonempty_node_name_is_kept_witness :
    exampleOpts.nodeName ≠ "" ∧
    (runStartCmd noEnvWorld "/rootfs" exampleOpts).startOpts.nodeName = "worker-1" ∧
    Event.daemonNew "" "worker-1" none ∈ (runStartCmd noEnvWorld "/rootfs" exampleOpts).trace ∧
    runStartCmd { noEnvWorld with lookupEnv := exampleWorld.lookupEnv } "/rootfs" exampleOpts =
      runStartCmd noEnvWorld "/rootfs" exampleOpts :=
  ⟨by decide,
   (nonempty_node_name_is_kept noEnvWorld "/rootfs" exampleOpts (by decide)).1,
   by decide,
   (nonempty_node_name_is_kept noEnvWorld "/rootfs" exampleOpts (by decide)).2.2.2 _⟩

/-- C5: with an empty `--node-name` the resolution gets past the check exactly
when `NODE_NAME` is set and non-empty; the node name is then the value of the
variable, and it is the name handed to `daemon.New`; otherwise the process
exits at once with the message that the node name is required. -/
theorem empty_node_name_is_read_from_env (w : World) (rootMount : String) (o : StartOpts)
    (h : o.nodeName = "") :
    (Event.fatalf "node-name is required" [] ∉ (runStartCmd w rootMount o).trace ↔
      ((w.lookupEnv "NODE_NAME").2 = true ∧ (w.lookupEnv "NODE_NAME").1 ≠ "")) ∧
    (((w.lookupEnv "NODE_NAME").2 = true ∧ (w.lookupEnv "NODE_NAME").1 ≠ "") →
      (runStartCmd w rootMount o).startOpts.nodeName = (w.lookupEnv "NODE_NAME").1 ∧
      (∃ ev ∈ (runStartCmd w rootMount o).trace, ev.isConfigLoad = true) ∧
      (∀ nn rp e, Event.daemonNew rp nn e ∈ (runStartCmd w rootMount o).trace →
        nn = (w.lookupEnv "NODE_NAME").1)) ∧
    (¬ ((w.lookupEnv "NODE_NAME").2 = true ∧ (w.lookupEnv "NODE_NAME").1 ≠ "") →
      (runStartCmd w rootMount o).outcome = Outcome.exited 255 ∧
      (runStartCmd w rootMount o).startOpts = o ∧
      (runStartCmd w rootMount o).trace =
        [Event.lookupEnv "NODE_NAME" (w.lookupEnv "NODE_NAME").1 (w.lookupEnv "NODE_NAME").2,
         Event.fatalf "node-name is required" []]) := by
  refine ⟨?_, ?_, ?_⟩
  · unfold runStartCmd runStartCmd.afterNodeName runStartCmd.handoff
    dsimp only
    repeat' split
    all_goals simp_all [glogFatalf, goPanic, goReturn, mem_newClientBuilder_trace]
    rename_i hor
    intro h2
    rcases hor with h3 | h3
    · simp [h2] at h3
    · exact h3
  · intro hset
    refine ⟨?_, ?_, ?_⟩
    · unfold runStartCmd
      simp [h, hset, afterNodeName_nodeName]
    · unfold runStartCmd runStartCmd.afterNodeName runStartCmd.handoff
      dsimp only
      by_cases hk : o.kubeconfig = ""
      · refine ⟨Event.inClusterConfig w.inClusterConfig.2, ?_, rfl⟩
        repeat' split
        all_goals simp_all [glogFatalf, goPanic, goReturn, mem_newClientBuilder_trace]
      · refine ⟨Event.buildConfigFromFlags "" o.kubeconfig
          (w.buildConfigFromFlags "" o.kubeconfig).2, ?_, rfl⟩
        repeat' split
        all_goals simp_all [glogFatalf, goPanic, goReturn, mem_newClientBuilder_trace]
    · unfold runStartCmd runStartCmd.afterNodeName runStartCmd.handoff
      dsimp only
      repeat' split
      all_goals simp_all [glogFatalf, goPanic, goReturn, mem_newClientBuilder_trace]
  · intro hunset
    unfold runStartCmd
    have hor : (w.lookupEnv "NODE_NAME").2 = false ∨ (w.lookupEnv "NODE_NAME").1 = "" := by
      by_cases h2 : (w.lookupEnv "NODE_NAME").2 = true
      · right
        by_contra h1
        exact hunset ⟨h2, h1⟩
      · left
        simpa using h2
    simp [h, hor, glogFatalf]

theorem empty_node_name_is_read_from_env_witness :
    defaultOpts.nodeName = "" ∧
    (runStartCmd exampleWorld "/rootfs" defaultOpts).startOpts.nodeName = "worker-0" ∧
    Event.daemonNew "" "worker-0" none ∈ (runStartCmd exampleWorld "/rootfs" defaultOpts).trace ∧
    (runStartCmd noEnvWorld "/rootfs" defaultOpts).outcome = Outcome.exited 255 :=
  ⟨by decide,
   ((empty_node_name_is_read_from_env exampleWorld "/rootfs" defaultOpts (by decide)).2.1
      (by decide)).1,
   by decide,
   ((empty_node_name_is_read_from_env noEnvWorld "/rootfs" defaultOpts (by decide)).2.2
      (by decide)).1⟩

/-- C9: with an empty `--node-name` and `NODE_NAME` unset or empty, the process
exits with status 255 after the lookup alone: no credential source is read, no
client is constructed, and neither stat nor chroot nor chdir is attempted. -/
theorem missing_node_name_exits_before_clients (w : World) (rootMount : String)
    (o : StartOpts) (h : o.nodeName = "")
    (henv : (w.lookupEnv "NODE_NAME").2 = false ∨ (w.lookupEnv "NODE_NAME").1 = "") :
    (runStartCmd w rootMount o).outcome = Outcome.exited 255 ∧
    (runStartCmd w rootMount o).trace =
      [Event.lookupEnv "NODE_NAME" (w.lookupEnv "NODE_NAME").1 (w.lookupEnv "NODE_NAME").2,
       Event.fatalf "node-name is required" []] ∧
    (∀ ev ∈ (runStartCmd w rootMount o).trace,
      ev.isConfigLoad = false ∧ ev.isClientConstruction = false ∧
      ev.isRootStepOrNew = false) := by
  have ht : runStartCmd w rootMount o =
      glogFatalf o
        [Event.lookupEnv "NODE_NAME" (w.lookupEnv "NODE_NAME").1 (w.lookupEnv "NODE_NAME").2]
        "node-name is required" [] := by
    unfold runStartCmd
    simp [h, henv]
  rw [ht]
  simp [glogFatalf, Event.isConfigLoad, Event.isClientConstruction, Event.isRootStepOrNew]

theorem missing_node_name_exits_before_clients_witness :
    (runStartCmd noEnvWorld "/rootfs" defaultOpts).outcome = Outcome.exited 255 ∧
    (runStartCmd noEnvWorld "/rootfs" defaultOpts).trace =
      [Event.lookupEnv "NODE_NAME" "" false, Event.fatalf "node-name is required" []] :=
  ⟨(missing_node_name_exits_before_clients noEnvWorld "/rootfs" defaultOpts (by decide)
      (by decide)).1,
   (missing_node_name_exits_before_clients noEnvWorld "/rootfs" defaultOpts (by decide)
      (by decide)).2.1⟩

/-! ## The client builder -/

/-- C6: `newClientBuilder` reads exactly one credential source, chosen by
whether `kubeconfig` is empty (the in-cluster configuration for the empty
string, the file at that very path otherwise); its error is the error of that
source, and the builder is nil exactly when that error is not. -/
theorem newClientBuilder_selects_one_source (w : World) (kubeconfig : String) :
    (newClientBuilder w kubeconfig).trace =
      (if kubeconfig = "" then [Event.inClusterConfig w.inClusterConfig.2]
       else [Event.buildConfigFromFlags "" kubeconfig
          (w.buildConfigFromFlags "" kubeconfig).2]) ∧
    (newClientBuilder w kubeconfig).err =
      (if kubeconfig = "" then w.inClusterConfig.2
       else (w.buildConfigFromFlags "" kubeconfig).2) ∧
    (newClientBuilder w kubeconfig).cb =
      (if (newClientBuilder w kubeconfig).err = none then
        some { config := if kubeconfig = "" then w.inClusterConfig.1
                         else (w.buildConfigFromFlags "" kubeconfig).1 }
       else none) :=
  ⟨newClientBuilder_trace w kubeconfig, newClientBuilder_err w kubeconfig,
   newClientBuilder_cb w kubeconfig⟩

/-! ## The root transition -/

/-- C3: when the `os.Stat` check of `runStartCmd` gives an error, of whatever
kind, the process exits with status 255 and there is no chroot, no chdir, no
assignment to `startOpts.rootPrefix` (which keeps its value) and no
`daemon.New`. -/
theorem stat_error_stops_root_transition (w : World) (rootMount : String) (o : StartOpts)
    (err : GoError) (h : w.stat rootMount = some err) :
    (runStartCmd w rootMount o).outcome = Outcome.exited 255 ∧
    (∀ p e, Event.chroot p e ∉ (runStartCmd w rootMount o).trace) ∧
    (∀ p e, Event.chdir p e ∉ (runStartCmd w rootMount o).trace) ∧
    (∀ v, Event.assignRootPrefix v ∉ (runStartCmd w rootMount o).trace) ∧
    (∀ rp nn e, Event.daemonNew rp nn e ∉ (runStartCmd w rootMount o).trace) ∧
    (runStartCmd w rootMount o).startOpts.rootPrefix = o.rootPrefix := by
  unfold runStartCmd runStartCmd.afterNodeName
  simp only [h]
  repeat' split
  all_goals simp_all [glogFatalf, mem_newClientBuilder_trace]

theorem stat_error_stops_root_transition_witness :
    exampleWorld.stat "/nonexistent" = some "no such file or directory" ∧
    (runStartCmd exampleWorld "/nonexistent" exampleOpts).outcome = Outcome.exited 255 ∧
    (runStartCmd exampleWorld "/nonexistent" exampleOpts).startOpts.rootPrefix = "/rootfs" ∧
    Event.stat "/nonexistent" (some "no such file or directory") ∈
      (runStartCmd exampleWorld "/nonexistent" exampleOpts).trace :=
  ⟨by decide,
   (stat_error_stops_root_transition exampleWorld "/nonexistent" exampleOpts
      "no such file or directory" (by decide)).1,
   (stat_error_stops_root_transition exampleWorld "/nonexistent" exampleOpts
      "no such file or directory" (by decide)).2.2.2.2.2,
   by decide⟩

/-- C7: when the stat, the chroot and the chdir of an invocation all succeeded,
`startOpts.rootPrefix` is the empty string at the end, whatever it was at the
start, every call of `daemon.New` got the empty string as its root prefix, and
`daemon.New` is called that way once both clients are constructed. -/
theorem root_prefix_empty_after_transition (w : World) (rootMount : String) (o : StartOpts)
    (p q : String)
    (hstat : Event.stat p none ∈ (runStartCmd w rootMount o).trace)
    (hchroot : Event.chroot q none ∈ (runStartCmd w rootMount o).trace)
    (hchdir : Event.chdir "/" none ∈ (runStartCmd w rootMount o).trace) :
    (runStartCmd w rootMount o).startOpts.rootPrefix = "" ∧
    (∀ rp nn e, Event.daemonNew rp nn e ∈ (runStartCmd w rootMount o).trace → rp = "") ∧
    (Event.kubeClientOrDie w.componentName false ∈ (runStartCmd w rootMount o).trace →
      ∃ e, Event.daemonNew "" (runStartCmd w rootMount o).startOpts.nodeName e ∈
        (runStartCmd w rootMount o).trace) := by
  revert hstat hchroot hchdir
  unfold runStartCmd runStartCmd.afterNodeName runStartCmd.handoff
  dsimp only
  repeat' split
  all_goals simp_all [glogFatalf, goPanic, goReturn, mem_newClientBuilder_trace]

theorem root_prefix_empty_after_transition_witness :
    exampleOpts.rootPrefix = "/rootfs" ∧
    (runStartCmd exampleWorld "/rootfs" exampleOpts).startOpts.rootPrefix = "" ∧
    Event.daemonNew "" "worker-1" none ∈ (runStartCmd exampleWorld "/rootfs" exampleOpts).trace :=
  ⟨by decide,
   (root_prefix_empty_after_transition exampleWorld "/rootfs" exampleOpts "/rootfs" "/rootfs"
      (by decide) (by decide) (by decide)).1,
   by decide⟩

/-- C8: in every invocation the steps of the root transition and the call of
`daemon.New`, in the order in which they happen, are an initial part of
stat, chroot, chdir to `/`, clearing of the prefix, `daemon.New`, in which only
the last step performed can have failed: no chroot without a successful stat,
no chdir without a successful chroot, no clearing and no `daemon.New` unless
all three succeeded. -/
theorem root_transition_steps_in_order (w : World) (rootMount : String) (o : StartOpts) :
    (runStartCmd w rootMount o).trace.filter Event.isRootStepOrNew = [] ∨
    (∃ e, (runStartCmd w rootMount o).trace.filter Event.isRootStepOrNew =
      [Event.stat rootMount (some e)]) ∨
    (∃ e, (runStartCmd w rootMount o).trace.filter Event.isRootStepOrNew =
      [Event.stat rootMount none, Event.chroot o.rootPrefix (some e)]) ∨
    (∃ e, (runStartCmd w rootMount o).trace.filter Event.isRootStepOrNew =
      [Event.stat rootMount none, Event.chroot o.rootPrefix none, Event.chdir "/" (some e)]) ∨
    ((runStartCmd w rootMount o).trace.filter Event.isRootStepOrNew =
      [Event.stat rootMount none, Event.chroot o.rootPrefix none, Event.chdir "/" none,
       Event.assignRootPrefix ""]) ∨
    (∃ nn e, (runStartCmd w rootMount o).trace.filter Event.isRootStepOrNew =
      [Event.stat rootMount none, Event.chroot o.rootPrefix none, Event.chdir "/" none,
       Event.assignRootPrefix "", Event.daemonNew "" nn e]) := by
  have hb : ∀ k, (newClientBuilder w k).trace.filter Event.isRootStepOrNew = [] := by
    intro k
    apply filter_newClientBuilder_trace
    intro ev hev
    cases ev <;> first | rfl | cases hev
  unfold runStartCmd runStartCmd.afterNodeName runStartCmd.handoff
  dsimp only
  repeat' split
  all_goals simp only [glogFatalf, goPanic, goReturn, List.filter_append, hb, List.nil_append]
  all_goals clear hb
  all_goals simp_all [List.filter_cons, Event.isRootStepOrNew]

/-! ## The handoff to the daemon -/

/-- C10: once `daemon.Run` has been called, the way the invocation ends is
decided by its result alone: the process exits with status 255 exactly when
the result is an error and the function returns exactly when it is nil; and
that call is the only call of `daemon.Run` of the invocation. -/
theorem outcome_follows_daemon_run (w : World) (rootMount : String) (o : StartOpts)
    (e : Option GoError) (h : Event.daemonRun e ∈ (runStartCmd w rootMount o).trace) :
    ((runStartCmd w rootMount o).outcome = Outcome.exited 255 ↔ e ≠ none) ∧
    ((runStartCmd w rootMount o).outcome = Outcome.returned ↔ e = none) ∧
    (runStartCmd w rootMount o).trace.filter Event.isDaemonRun = [Event.daemonRun e] := by
  have hb : ∀ k, (newClientBuilder w k).trace.filter Event.isDaemonRun = [] := by
    intro k
    apply filter_newClientBuilder_trace
    intro ev hev
    cases ev <;> first | rfl | cases hev
  revert h
  unfold runStartCmd runStartCmd.afterNodeName runStartCmd.handoff
  dsimp only
  repeat' split
  all_goals simp only [glogFatalf, goPanic, goReturn, List.filter_append, hb, List.nil_append]
  all_goals clear hb
  all_goals simp_all [List.filter_cons, Event.isDaemonRun, mem_newClientBuilder_trace]

theorem outcome_follows_daemon_run_witness :
    Event.daemonRun (some "lost connection") ∈
      (runStartCmd runFailsWorld "/rootfs" exampleOpts).trace ∧
    (runStartCmd runFailsWorld "/rootfs" exampleOpts).outcome = Outcome.exited 255 ∧
    (runStartCmd exampleWorld "/rootfs" exampleOpts).outcome = Outcome.returned :=
  ⟨by decide,
   (outcome_follows_daemon_run runFailsWorld "/rootfs" exampleOpts (some "lost connection")
      (by decide)).1.2 (by decide),
   (outcome_follows_daemon_run exampleWorld "/rootfs" exampleOpts none (by decide)).2.1.2 rfl⟩

/-- The stop channel of an invocation that reached `daemon.Run` was made once;
it is closed once when `daemon.Run` returned nil and not at all when it
returned an error. -/
theorem stopCh_closed_only_on_return (w : World) (rootMount : String) (o : StartOpts)
    (e : Option GoError) (h : Event.daemonRun e ∈ (runStartCmd w rootMount o).trace) :
    (runStartCmd w rootMount o).trace.count Event.makeStopCh = 1 ∧
    (runStartCmd w rootMount o).trace.count Event.closeStopCh = if e = none then 1 else 0 := by
  have hb : ∀ k (ev : Event), ev.isConfigLoad = false →
      (newClientBuilder w k).trace.count ev = 0 := by
    intro k ev hev
    rw [List.count_eq_zero]
    intro hmem
    rw [mem_newClientBuilder_trace] at hmem
    rcases hmem with ⟨_, rfl⟩ | ⟨_, rfl⟩ <;> cases hev
  have h1 := fun k => hb k Event.makeStopCh rfl
  have h2 := fun k => hb k Event.closeStopCh rfl
  revert h
  unfold runStartCmd runStartCmd.afterNodeName runStartCmd.handoff
  dsimp only
  repeat' split
  all_goals simp only [glogFatalf, goPanic, goReturn, List.count_append, h1, h2]
  all_goals clear hb h1 h2
  all_goals simp_all [List.count_cons, mem_newClientBuilder_trace]

/-- C1: on a node where every step succeeds and `daemon.Run` returns an error,
the stop channel is made, `daemon.Run` is called, the process exits with status
255 through `glog.Fatalf`, and the deferred `close(stopCh)` never runs. -/
theorem stopCh_not_closed_when_run_fails :
    (runStartCmd runFailsWorld "/rootfs" exampleOpts).outcome = Outcome.exited 255 ∧
    (runStartCmd runFailsWorld "/rootfs" exampleOpts).trace =
      [Event.inClusterConfig none, Event.stat "/rootfs" none, Event.chroot "/rootfs" none,
       Event.chdir "/" none, Event.assignRootPrefix "",
       Event.clientOrDie "machine-config-daemon" false,
       Event.kubeClientOrDie "machine-config-daemon" false,
       Event.daemonNew "" "worker-1" none, Event.makeStopCh,
       Event.daemonRun (some "lost connection"),
       Event.fatalf "failed to run: %v" ["lost connection"]] ∧
    (runStartCmd runFailsWorld "/rootfs" exampleOpts).trace.count Event.closeStopCh = 0 ∧
    (runStartCmd exampleWorld "/rootfs" exampleOpts).trace.count Event.closeStopCh = 1 := by
  decide

/-- C2: the path given to `os.Stat` is the value of `startOpts.rootMount`, not
the `startOpts.rootPrefix` given to `syscall.Chroot`.  With `/` for the former
and `--root-prefix=/nonexistent`, the check passes and the chroot to the
unchecked path is attempted; with the empty string for the former and the
default `--root-prefix=/rootfs`, which exists, the process exits reporting that
`/rootfs` does not exist. -/
theorem stat_path_is_not_chroot_path :
    (runStartCmd exampleWorld "/"
        { kubeconfig := "", nodeName := "worker-1", rootPrefix := "/nonexistent" }).trace =
      [Event.inClusterConfig none, Event.stat "/" none,
       Event.chroot "/nonexistent" (some "no such file or directory"),
       Event.fatalf "unable to chroot to %s: %s" ["/nonexistent", "no such file or directory"]] ∧
    exampleWorld.stat "/rootfs" = none ∧
    (runStartCmd exampleWorld "" exampleOpts).trace =
      [Event.inClusterConfig none, Event.stat "" (some "no such file or directory"),
       Event.fatalf "rootPrefix %s does not exist" ["/rootfs"]] := by
  decide

end MachineConfigDaemon
